import Mathlib

/-
  Verification development for the HTGTTM lane-violation detection pipeline.

  Shallow embedding of the core Python modules:
    - src/src/modules/tracker.py            (SimpleTracker)
    - src/src/modules/violation_detector.py (ViolationDetector)
    - src/src/utils/zone_manager.py         (Zone, ZoneManager)
    - src/src/pipeline.py                   (LaneViolationPipeline.process_frame)

  Modelling conventions:
    - Python dicts are modelled as association lists (Python dicts preserve
      insertion order; assignment to an existing key keeps its position,
      assignment to a fresh key appends).
    - Python floats are modelled as exact rationals.  Euclidean distances,
      which the source compares with sqrt applied to both sides, are carried
      in squared form: for nonnegative a, b we have sqrt a < sqrt b iff a < b,
      so the greedy selection is unchanged.
    - Wall-clock fields (first_seen, last_seen datetimes) and image payloads
      (numpy arrays, file paths, drawing) are outside the embedding; frames
      are an abstract type parameter.
-/

namespace HTGTTM

/-- Dictionary lookup on an association list: first entry with the given key. -/
def dlookup {α β : Type} [DecidableEq α] (k : α) : List (α × β) → Option β
  | [] => none
  | (k', v) :: rest => if k' = k then some v else dlookup k rest

/-- Python dict assignment d[k] = v: replace in place if the key exists,
append otherwise. -/
def dinsert {α β : Type} [DecidableEq α] (l : List (α × β)) (k : α) (v : β) :
    List (α × β) :=
  if l.any (fun p => p.1 = k) then
    l.map (fun p => if p.1 = k then (k, v) else p)
  else l ++ [(k, v)]

/-- Keys of an association list. -/
def dkeys {α β : Type} (l : List (α × β)) : List α := l.map Prod.fst

/-! ## Object tracker (src/src/modules/tracker.py) -/

/-- Detection payload as consumed by the tracker and violation detector:
the dict fields the core reads (box, center, confidence, class, track id).
Pixel coordinates are modelled as exact rationals. -/
structure Detection where
  box : ℚ × ℚ × ℚ × ℚ
  center : ℚ × ℚ
  confidence : ℚ
  class_id : Int
  class_name : String
  track_id : Int
deriving DecidableEq, Repr

/-- TrackedObject dataclass (tracker.py).  The first_seen and last_seen
datetime fields are wall-clock only and are not modelled. -/
structure TrackedObject where
  track_id : Nat
  detections : List Detection
  timestamps : List ℚ
  trajectory : List (ℚ × ℚ)
  age : Nat
  hits : Nat
  consecutive_misses : Nat
deriving DecidableEq, Repr

/-- SimpleTracker state (tracker.py).  tracks models the Python dict
from track id to TrackedObject, in insertion order. -/
structure SimpleTracker where
  max_distance : ℚ
  max_age : Nat
  min_hits : Nat
  next_track_id : Nat
  tracks : List (Nat × TrackedObject)
deriving DecidableEq, Repr

/-- Fresh tracker as built by SimpleTracker.__init__. -/
def SimpleTracker.init (max_distance : ℚ) (max_age min_hits : Nat) : SimpleTracker :=
  { max_distance := max_distance, max_age := max_age, min_hits := min_hits
    next_track_id := 1, tracks := [] }

/-- Squared Euclidean distance.  The source computes
sqrt((x1-x2)^2 + (y1-y2)^2) and only ever compares such distances with
each other and with max_distance; all comparisons are carried here on
squares (valid since sqrt is strictly monotone on nonnegatives). -/
def distSq (p q : ℚ × ℚ) : ℚ :=
  (p.1 - q.1) ^ 2 + (p.2 - q.2) ^ 2

/-- Inner loop of SimpleTracker.match_detections: over the enumerated
detections, skip used indices and keep the strictly best (smallest
distance) candidate, starting from best_distance = max_distance.
Distances are compared in squared form; ties keep the earlier index
because the update condition is a strict inequality. -/
def findBestMatch (last : ℚ × ℚ) (dets : List Detection) (used : List Nat)
    (max_distance : ℚ) : Option Nat :=
  (dets.enum.foldl
    (fun (acc : Option Nat × ℚ) (idet : Nat × Detection) =>
      if idet.1 ∈ used then acc
      else if distSq last idet.2.center < acc.2 then (some idet.1, distSq last idet.2.center)
      else acc)
    (none, max_distance ^ 2)).1

/-- SimpleTracker.match_detections.  Returns the matched dict as a list of
(track id, detection index) pairs in track order, together with the
used_detections index set; the source stores the detection object itself,
which is recovered from the index. -/
def match_detections (t : SimpleTracker) (dets : List Detection) :
    List (Nat × Nat) × List Nat :=
  t.tracks.foldl
    (fun (acc : List (Nat × Nat) × List Nat) (tt : Nat × TrackedObject) =>
      if tt.2.age > t.max_age then acc
      else
        match tt.2.trajectory.getLast? with
        | none => acc
        | some last =>
          match findBestMatch last dets acc.2 t.max_distance with
          | none => acc
          | some i => (acc.1 ++ [(tt.1, i)], acc.2 ++ [i]))
    ([], [])

/-- Body of the matched-track update loop in SimpleTracker.update:
append detection, timestamp and centroid, bump hits and age, clear
misses, then trim the history lists once the trajectory exceeds 100. -/
def updatedTrack (tr : TrackedObject) (det : Detection) (ts : ℚ) : TrackedObject :=
  let tr' : TrackedObject :=
    { tr with
      detections := tr.detections ++ [det]
      timestamps := tr.timestamps ++ [ts]
      trajectory := tr.trajectory ++ [det.center]
      hits := tr.hits + 1
      consecutive_misses := 0
      age := tr.age + 1 }
  if tr'.trajectory.length > 100 then
    { tr' with
      trajectory := tr'.trajectory.tail
      detections := tr'.detections.tail
      timestamps := tr'.timestamps.tail }
  else tr'

/-- TrackedObject literal built for an unmatched detection in
SimpleTracker.update (age=1, hits=1, consecutive_misses=0). -/
def newTrack (tid : Nat) (det : Detection) (ts : ℚ) : TrackedObject :=
  { track_id := tid, detections := [det], timestamps := [ts]
    trajectory := [det.center], age := 1, hits := 1, consecutive_misses := 0 }

/-- First loop of SimpleTracker.update: each track found in the matched
dict is updated with its matched detection (recovered from its index). -/
def updateMatched (l : List (Nat × TrackedObject)) (matched : List (Nat × Nat))
    (dets : List Detection) (ts : ℚ) : List (Nat × TrackedObject) :=
  l.map (fun p =>
    match (dlookup p.1 matched).bind (fun i => dets[i]?) with
    | some det => (p.1, updatedTrack p.2 det ts)
    | none => p)

/-- Second loop of SimpleTracker.update: for every enumerated detection
whose index is not in matched_detection_indices, insert a fresh track
under the running next_track_id and bump the id counter. -/
def createNewTracks (ts : ℚ) (matched_detection_indices : List Nat)
    (acc : List (Nat × TrackedObject) × Nat) (idets : List (Nat × Detection)) :
    List (Nat × TrackedObject) × Nat :=
  idets.foldl
    (fun acc idet =>
      if idet.1 ∈ matched_detection_indices then acc
      else (dinsert acc.1 acc.2 (newTrack acc.2 idet.2 ts), acc.2 + 1))
    acc

/-- Third loop of SimpleTracker.update: every track whose id is not a key
of the matched dict gets its consecutive_misses and age bumped. -/
def markMissing (l : List (Nat × TrackedObject)) (matched : List (Nat × Nat)) :
    List (Nat × TrackedObject) :=
  l.map (fun p =>
    if (dlookup p.1 matched).isSome then p
    else (p.1, { p.2 with consecutive_misses := p.2.consecutive_misses + 1
                          age := p.2.age + 1 }))

/-- SimpleTracker.update, loop by loop.  Two source peculiarities are kept
faithfully: matched_detection_indices is initialised empty and never
populated, so the new-track loop runs for every detection, matched or not;
and the miss-marking loop runs over the dict after the new tracks were
inserted, so freshly created tracks are immediately marked missing too. -/
def SimpleTracker.update (t : SimpleTracker) (dets : List Detection) (ts : ℚ) :
    SimpleTracker :=
  let matched := (match_detections t dets).1
  let matched_detection_indices : List Nat := []
  let tracks1 := updateMatched t.tracks matched dets ts
  let created := createNewTracks ts matched_detection_indices
    (tracks1, t.next_track_id) dets.enum
  let tracks3 := markMissing created.1 matched
  -- remove old tracks
  { t with tracks := tracks3.filter (fun p => p.2.age ≤ t.max_age)
           next_track_id := created.2 }

/-- SimpleTracker.get_active_tracks: confirmed tracks only. -/
def SimpleTracker.get_active_tracks (t : SimpleTracker) : List (Nat × TrackedObject) :=
  t.tracks.filter (fun p => t.min_hits ≤ p.2.hits ∧ p.2.age ≤ t.max_age)

/-- SimpleTracker.reset. -/
def SimpleTracker.reset (t : SimpleTracker) : SimpleTracker :=
  { t with tracks := [], next_track_id := 1 }

/-- Run a sequence of update calls, each with its detection list and
timestamp. -/
def runUpdates (t : SimpleTracker) (inputs : List (List Detection × ℚ)) :
    SimpleTracker :=
  inputs.foldl (fun s p => s.update p.1 p.2) t

/-- Holds when the given track id is matched to no detection in any of the
update calls of the sequence, evaluated along the trace. -/
def unmatchedThroughout (tid : Nat) : SimpleTracker → List (List Detection × ℚ) → Bool
  | _, [] => true
  | s, (d, ts) :: rest =>
      (dlookup tid (match_detections s d).1).isNone
        && unmatchedThroughout tid (s.update d ts) rest

/-- Detection sample shared by concrete evaluations: a unit-confidence car
detection with the given centre and a 10 by 10 box around it. -/
def sampleDet (c : ℚ × ℚ) : Detection :=
  { box := (c.1 - 5, c.2 - 5, c.1 + 5, c.2 + 5), center := c, confidence := 1
    class_id := 2, class_name := "car", track_id := -1 }

/-! ## Zone store (src/src/utils/zone_manager.py) -/

/-- Zone, with the fields the core logic reads.  The colour field is used
only by drawing and is not modelled.  The cached numpy polygon array and
bounding box are recomputed from the polygon at each use in this model;
the source keeps them in sync via update_cache after every mutation. -/
structure Zone where
  zone_id : String
  name : String
  polygon : List (ℤ × ℤ)
  allowed_classes : List String
  base_width : Option ℤ
  base_height : Option ℤ
deriving DecidableEq, Repr

/-- Componentwise minimum of the polygon vertices (the cached _bbox_min);
(0, 0) for an empty polygon as in the source. -/
def bboxMin (poly : List (ℤ × ℤ)) : ℤ × ℤ :=
  match poly with
  | [] => (0, 0)
  | p :: rest => rest.foldl (fun a q => (min a.1 q.1, min a.2 q.2)) p

/-- Componentwise maximum of the polygon vertices (the cached _bbox_max). -/
def bboxMax (poly : List (ℤ × ℤ)) : ℤ × ℤ :=
  match poly with
  | [] => (0, 0)
  | p :: rest => rest.foldl (fun a q => (max a.1 q.1, max a.2 q.2)) p

/-- Consecutive edges of a closed polygon: successive vertex pairs plus the
closing edge from the last vertex back to the first. -/
def polygonEdges (poly : List (ℤ × ℤ)) : List ((ℤ × ℤ) × (ℤ × ℤ)) :=
  match poly with
  | [] => []
  | p :: rest => (poly.zip (rest ++ [p]))

/-- Whether the query point lies on the closed segment between a and b. -/
def onSegment (a b : ℤ × ℤ) (p : ℚ × ℚ) : Bool :=
  ((b.1 - a.1 : ℚ) * (p.2 - a.2) - (b.2 - a.2 : ℚ) * (p.1 - a.1) = 0)
    && (min (a.1 : ℚ) b.1 ≤ p.1 && p.1 ≤ max (a.1 : ℚ) b.1)
    && (min (a.2 : ℚ) b.2 ≤ p.2 && p.2 ≤ max (a.2 : ℚ) b.2)

/-- Whether a horizontal ray from p to the right crosses the edge from a
to b (standard even-odd crossing rule). -/
def edgeCrosses (a b : ℤ × ℤ) (p : ℚ × ℚ) : Bool :=
  (((a.2 : ℚ) ≤ p.2 && p.2 < (b.2 : ℚ)) || ((b.2 : ℚ) ≤ p.2 && p.2 < (a.2 : ℚ)))
    && ((p.2 - a.2) * (b.1 - a.1) - (p.1 - a.1) * ((b.2 : ℚ) - a.2))
        * (if (a.2 : ℚ) < (b.2 : ℚ) then 1 else -1) > 0

/-- Point-in-polygon test modelling cv2.pointPolygonTest(poly, p, False) >= 0:
true when p is strictly inside (even-odd rule) or on the boundary. -/
def pointInPolygon (poly : List (ℤ × ℤ)) (p : ℚ × ℚ) : Bool :=
  (polygonEdges poly).any (fun e => onSegment e.1 e.2 p)
    || (polygonEdges poly).countP (fun e => edgeCrosses e.1 e.2 p) % 2 = 1

/-- Zone.contains_point: fast axis-aligned bounding-box rejection followed
by the polygon test. -/
def Zone.contains_point (z : Zone) (p : ℚ × ℚ) : Bool :=
  if p.1 < ((bboxMin z.polygon).1 : ℚ) || p.1 > ((bboxMax z.polygon).1 : ℚ)
      || p.2 < ((bboxMin z.polygon).2 : ℚ) || p.2 > ((bboxMax z.polygon).2 : ℚ)
  then false
  else pointInPolygon z.polygon p

/-- Zone.is_vehicle_allowed: allow-list membership. -/
def Zone.is_vehicle_allowed (z : Zone) (vehicle_class : String) : Bool :=
  vehicle_class ∈ z.allowed_classes

/-- ZoneManager holds its zones as an ordered list. -/
abbrev ZoneManager := List Zone

/-- ZoneManager.get_zone: first zone with the given id, none when the id is
unknown. -/
def get_zone (zm : ZoneManager) (zone_id : String) : Option Zone :=
  zm.find? (fun z => z.zone_id = zone_id)

/-- ZoneManager.get_zones_at_point. -/
def get_zones_at_point (zm : ZoneManager) (p : ℚ × ℚ) : List Zone :=
  zm.filter (fun z => z.contains_point p)

/-- Entry of the violating-zones list built by ZoneManager.check_violation. -/
structure ViolatingZone where
  zone_id : String
  zone_name : String
  allowed_classes : List String
  vehicle_class : String
deriving DecidableEq, Repr

/-- Return dict of ZoneManager.check_violation.  The early-return dict for
a point in no selected zone has no total_zones key, modelled as none. -/
structure ZoneViolationInfo where
  is_violating : Bool
  violation_type : Option String
  zones : List ViolatingZone
  total_zones : Option Nat
deriving DecidableEq, Repr

/-- ZoneManager.check_violation.  The optional selected_zone_ids argument
defaults to None in the source; None and the empty list are both falsy
there, so both are modelled as the empty list. -/
def check_violation (zm : ZoneManager) (vehicle_center : ℚ × ℚ)
    (vehicle_class : String) (selected_zone_ids : List String) : ZoneViolationInfo :=
  let zones_at_point := get_zones_at_point zm vehicle_center
  let zones_at_point :=
    if selected_zone_ids ≠ [] then
      zones_at_point.filter (fun z => z.zone_id ∈ selected_zone_ids)
    else zones_at_point
  if zones_at_point = [] then
    { is_violating := false, violation_type := none, zones := [], total_zones := none }
  else
    let violating_zones := (zones_at_point.filter
        (fun z => ¬ z.is_vehicle_allowed vehicle_class)).map
      (fun z => ViolatingZone.mk z.zone_id z.name z.allowed_classes vehicle_class)
    { is_violating := violating_zones.length > 0
      violation_type := if violating_zones.length > 0 then some "wrong_lane_zone" else none
      zones := violating_zones
      total_zones := some zones_at_point.length }

/-- Round-half-to-even on rationals, modelling the Python builtin round
composed with int.  The scale factors in the rescale path are modelled as
exact rationals rather than binary floats. -/
def pyRound (q : ℚ) : ℤ :=
  if q - ⌊q⌋ = 1 / 2 then (if Even ⌊q⌋ then ⌊q⌋ else ⌊q⌋ + 1) else round q

/-- Per-zone body of ZoneManager.rescale_to.  The truthiness guard on
base_width and base_height combined with the positivity check amounts to
both being present and positive.  Note the source leaves base_width and
base_height unchanged: only the polygon is rewritten. -/
def Zone.rescaled (z : Zone) (target_width target_height : ℤ) : Zone :=
  match z.base_width, z.base_height with
  | some bw, some bh =>
    if bw ≠ 0 ∧ bh ≠ 0 ∧ 0 < bw ∧ 0 < bh then
      { z with polygon := z.polygon.map (fun p =>
          (pyRound ((p.1 : ℚ) * ((target_width : ℚ) / (bw : ℚ))),
           pyRound ((p.2 : ℚ) * ((target_height : ℚ) / (bh : ℚ))))) }
    else z
  | _, _ => z

/-- ZoneManager.rescale_to: invalid target sizes leave the store unchanged
(warning only), otherwise every zone is rescaled in place. -/
def rescale_to (zm : ZoneManager) (target_width target_height : ℤ) : ZoneManager :=
  if target_width ≤ 0 ∨ target_height ≤ 0 then zm
  else zm.map (fun z => z.rescaled target_width target_height)

/-! ## Violation detector (src/src/modules/violation_detector.py) -/

/-- Per-track entry of ViolationDetector.violation_history. -/
structure ViolationRecord where
  consecutive_violations : Nat
  total_violations : Nat
  first_violation_frame : Option Int
deriving DecidableEq, Repr

/-- ViolationDetector.get_vehicle_bottom_center: bottom-centre of the
(x1, y1, x2, y2) box. -/
def get_vehicle_bottom_center (box : ℚ × ℚ × ℚ × ℚ) : ℚ × ℚ :=
  ((box.1 + box.2.2.1) / 2, box.2.2.2)

/-- Return dict of ViolationDetector.detect_violation; the detection key
is attached afterwards by batch_detect_violations, hence optional here. -/
structure ViolationResult where
  track_id : Int
  is_violating : Bool
  lane_violation : Bool
  zone_violation : Bool
  violation_score : ℚ
  zone_info : Option ZoneViolationInfo
  consecutive_violations : Nat
  total_violations : Nat
  detection : Option Detection
deriving DecidableEq, Repr

/-- ViolationDetector.detect_violation as exercised by the zone-first
pipeline, which always passes empty lane boundaries: with no boundaries
calculate_violation_score returns 0, so the lane branch yields score 0
and no lane violation whether or not zones are selected.  The zone branch
runs when the vehicle class and the selected ids are truthy (the zone
manager argument, an object, is always truthy in the source).  The source
first inserts a default history record for an unseen track id and then
mutates it in place; inserting the final record directly is equivalent
for the Python dict this models. -/
def detect_violation (history : List (Int × ViolationRecord))
    (vehicle_box : ℚ × ℚ × ℚ × ℚ) (track_id : Int) (zm : ZoneManager)
    (vehicle_class : String) (selected_zone_ids : List String)
    (frame_num : Option Int) :
    List (Int × ViolationRecord) × ViolationResult :=
  let violation_score : ℚ := 0
  let is_lane_violating := false
  let zone_violation_info :=
    if vehicle_class ≠ "" ∧ selected_zone_ids ≠ [] then
      some (check_violation zm (get_vehicle_bottom_center vehicle_box)
        vehicle_class selected_zone_ids)
    else none
  let is_zone_violating := (zone_violation_info.map ZoneViolationInfo.is_violating).getD false
  let is_violating := is_lane_violating || is_zone_violating
  let rec0 := (dlookup track_id history).getD ⟨0, 0, none⟩
  let rec1 :=
    if is_violating then
      { consecutive_violations := rec0.consecutive_violations + 1
        total_violations := rec0.total_violations + 1
        first_violation_frame :=
          if rec0.first_violation_frame = none then frame_num
          else rec0.first_violation_frame }
    else { rec0 with consecutive_violations := 0 }
  (dinsert history track_id rec1,
   { track_id := track_id, is_violating := is_violating
     lane_violation := is_lane_violating, zone_violation := is_zone_violating
     violation_score := violation_score, zone_info := zone_violation_info
     consecutive_violations := rec1.consecutive_violations
     total_violations := rec1.total_violations, detection := none })

/-- ViolationDetector.batch_detect_violations: fold detect_violation over
the detections, threading the history and attaching each detection to its
result dict. -/
def batch_detect_violations (history : List (Int × ViolationRecord))
    (dets : List Detection) (zm : ZoneManager) (selected_zone_ids : List String)
    (frame_num : Option Int) :
    List (Int × ViolationRecord) × List ViolationResult :=
  dets.foldl
    (fun acc det =>
      let r := detect_violation acc.1 det.box det.track_id zm det.class_name
        selected_zone_ids frame_num
      (r.1, acc.2 ++ [{ r.2 with detection := some det }]))
    (history, [])

/-- ViolationDetector.cleanup_history: drop records that are not mid-streak.
Present in the source but never invoked by the pipeline. -/
def cleanup_history (history : List (Int × ViolationRecord)) :
    List (Int × ViolationRecord) :=
  history.filter (fun p => p.2.consecutive_violations ≠ 0)

/-! ## Pipeline orchestrator (src/src/pipeline.py) -/

/-- Configuration fields of LaneViolationPipeline that process_frame reads. -/
structure PipelineConfig where
  frame_skip : Nat
  confirmation_base : Int
  frame_buffer_max : Nat
  zone_grace_frames : Nat
deriving DecidableEq, Repr

/-- Dynamic confirmation threshold computed in process_frame from the
frame-skip interval and the configured base. -/
def confirmRequired (frame_skip confirmation_base : Int) : Int :=
  if frame_skip ≤ 0 then confirmation_base
  else if frame_skip ≤ 2 then max 1 confirmation_base
  else if frame_skip ≤ 5 then 2
  else 1

/-- The is_confirmed flag set on each violation entry in process_frame. -/
def isConfirmed (is_violating : Bool) (consecutive confirm_required : Int) : Bool :=
  is_violating && (confirm_required ≤ consecutive)

/-- Metadata of a saved snapshot set.  The image files, path strings, crop
pixel geometry and vehicle-type naming are I/O artifacts outside the
embedding; the model keeps the identifying metadata. -/
structure SnapshotInfo where
  track_id : Int
  full_frame_num : Nat
  crop_frame_num : Int
  first_violation_frame : Option Int
deriving DecidableEq, Repr

/-- Lane boundaries dict as produced in the zone-first branch; the image
width and height fields come from the frame shape and are not modelled. -/
structure LaneBoundaries where
  boundaries : List (ℚ × ℚ)
  num_lanes : Nat
deriving DecidableEq, Repr

/-- Violation entry of the per-frame results after the confirmation loop:
the detector dict plus the is_confirmed flag and optional snapshot. -/
structure PipelineViolation where
  base : ViolationResult
  is_confirmed : Bool
  snapshot : Option SnapshotInfo
deriving DecidableEq, Repr

/-- Results dict of LaneViolationPipeline.process_frame. -/
structure FrameResults where
  frame_num : Nat
  detections : List Detection
  violations : List PipelineViolation
  lane_boundaries : Option LaneBoundaries
deriving DecidableEq, Repr

/-- Mutable pipeline state touched by process_frame.  Frames and the
external detector state are abstract type parameters; the detector
(YOLO model plus its internal tracker) is an external collaborator and
enters only through the detect function passed to process_frame. -/
structure PipelineState (Frame δ : Type) where
  det_state : δ
  zones : ZoneManager
  selected_zone_ids : List String
  violation_history : List (Int × ViolationRecord)
  violation_count : Nat
  saved_violation_snapshots : List (Int × SnapshotInfo)
  frame_buffer : List (Nat × Frame)
  zone_presence : List (Int × Nat)
deriving DecidableEq

/-- Initial pipeline state after __init__ with the given zone store. -/
def PipelineState.init {Frame δ : Type} (d0 : δ) (zones : ZoneManager) :
    PipelineState Frame δ :=
  { det_state := d0, zones := zones, selected_zone_ids := []
    violation_history := [], violation_count := 0
    saved_violation_snapshots := [], frame_buffer := [], zone_presence := [] }

/-- Frame retention step of process_frame: store the frame under its index
(OrderedDict assignment), then pop oldest entries while the size exceeds
the capacity, which drops exactly the excess from the front. -/
def record_frame_buffer {Frame : Type} (buffer : List (Nat × Frame))
    (frame_num : Nat) (frame : Frame) (cap : Nat) : List (Nat × Frame) :=
  let b := dinsert buffer frame_num frame
  b.drop (b.length - cap)

/-- Buffer membership test for a possibly negative frame index coming from
first_violation_frame (Python int keys). -/
def bufLookup {Frame : Type} (buffer : List (Nat × Frame)) (idx : Int) : Option Frame :=
  (buffer.find? (fun p => (p.1 : Int) = idx)).map Prod.snd

/-- Whether the centre lies in any selected zone, iterating the selected
ids in order and skipping unknown ids exactly as the source loop does. -/
def inAnySelectedZone (zm : ZoneManager) (selected_zone_ids : List String)
    (c : ℚ × ℚ) : Bool :=
  selected_zone_ids.any (fun zid =>
    match get_zone zm zid with
    | some z => z.contains_point c
    | none => false)

/-- Zone filtering loop of process_frame with the grace-period logic.
Python subtracts plain ints where this model subtracts naturals; both
sides agree because the grace bound is nonnegative and truncation only
occurs when the true difference is negative, in which case both accept. -/
def zoneFilter (zm : ZoneManager) (selected_zone_ids : List String)
    (grace : Nat) (frame_num : Nat) (presence : List (Int × Nat))
    (dets : List Detection) : List (Int × Nat) × List Detection :=
  dets.foldl
    (fun (acc : List (Int × Nat) × List Detection) det =>
      let in_any_zone := inAnySelectedZone zm selected_zone_ids det.center
      let presence' :=
        if in_any_zone ∧ (0 : Int) ≤ det.track_id then
          dinsert acc.1 det.track_id frame_num
        else acc.1
      let keep := in_any_zone ||
        (decide ((0 : Int) ≤ det.track_id) &&
          match dlookup det.track_id presence' with
          | some last_seen => frame_num - last_seen ≤ grace
          | none => false)
      (presence', if keep then acc.2 ++ [det] else acc.2))
    (presence, [])

/-- Snapshot metadata assembled on first confirmation: prefer the first
violation frame when it is still resident in the retention buffer,
otherwise fall back to the current frame; the full-frame snapshot always
uses the current frame. -/
def snapshotFor {Frame : Type} (track_id : Int)
    (history : List (Int × ViolationRecord)) (buffer : List (Nat × Frame))
    (frame_num : Nat) : SnapshotInfo :=
  let first_frame_idx := (dlookup track_id history).bind ViolationRecord.first_violation_frame
  let crop_frame_num : Int :=
    match first_frame_idx with
    | some i => if (bufLookup buffer i).isSome then i else (frame_num : Int)
    | none => (frame_num : Int)
  { track_id := track_id, full_frame_num := frame_num
    crop_frame_num := crop_frame_num, first_violation_frame := first_frame_idx }

/-- Accumulator of the confirmation loop in process_frame. -/
structure ConfirmAcc where
  saved : List (Int × SnapshotInfo)
  violation_count : Nat
  annotated : List PipelineViolation
deriving DecidableEq, Repr

/-- Body of the confirmation loop: flag the entry, count confirmed ones,
and save one snapshot set per track id (skipped when one already exists). -/
def processViolationEntry {Frame : Type} (confirm_required : Int)
    (history : List (Int × ViolationRecord)) (buffer : List (Nat × Frame))
    (frame_num : Nat) (acc : ConfirmAcc) (v : ViolationResult) : ConfirmAcc :=
  let is_confirmed := isConfirmed v.is_violating (v.consecutive_violations : Int)
    confirm_required
  if is_confirmed then
    let count' := acc.violation_count + 1
    if (dlookup v.track_id acc.saved).isSome then
      { acc with violation_count := count'
                 annotated := acc.annotated ++ [⟨v, true, none⟩] }
    else
      let info := snapshotFor v.track_id history buffer frame_num
      { saved := dinsert acc.saved v.track_id info
        violation_count := count'
        annotated := acc.annotated ++ [⟨v, true, some info⟩] }
  else { acc with annotated := acc.annotated ++ [⟨v, false, none⟩] }

/-- The confirmation loop of process_frame over all violation entries. -/
def processViolationList {Frame : Type} (confirm_required : Int)
    (history : List (Int × ViolationRecord)) (buffer : List (Nat × Frame))
    (frame_num : Nat) (saved0 : List (Int × SnapshotInfo)) (count0 : Nat)
    (vs : List ViolationResult) : ConfirmAcc :=
  vs.foldl (processViolationEntry confirm_required history buffer frame_num)
    ⟨saved0, count0, []⟩

/-- LaneViolationPipeline.process_frame.  require_zones is set to True in
__init__ unconditionally, so the lane-detection fallback branch is dead
code and the zone-first branch is modelled.  The empty results dict is
returned unchanged both for skipped frames and for the zero-zone refusal. -/
def process_frame {Frame δ : Type} (cfg : PipelineConfig)
    (detect : δ → Frame → δ × List Detection) (s : PipelineState Frame δ)
    (frame : Frame) (frame_num : Nat) : PipelineState Frame δ × FrameResults :=
  let s := { s with frame_buffer :=
    record_frame_buffer s.frame_buffer frame_num frame cfg.frame_buffer_max }
  let empty : FrameResults :=
    { frame_num := frame_num, detections := [], violations := []
      lane_boundaries := none }
  if frame_num % cfg.frame_skip ≠ 0 then (s, empty)
  else if s.zones.length = 0 then (s, empty)
  else
    let s := if s.selected_zone_ids = [] then
        { s with selected_zone_ids := s.zones.map Zone.zone_id }
      else s
    let lane_boundaries : LaneBoundaries := { boundaries := [], num_lanes := 0 }
    let dres := detect s.det_state frame
    let s := { s with det_state := dres.1 }
    let zf :=
      if s.selected_zone_ids ≠ [] then
        zoneFilter s.zones s.selected_zone_ids
          cfg.zone_grace_frames frame_num s.zone_presence dres.2
      else (s.zone_presence, dres.2)
    let s := { s with zone_presence := zf.1 }
    let dets := zf.2
    if dets = [] then
      (s, { empty with detections := dets, lane_boundaries := some lane_boundaries })
    else
      let bd := batch_detect_violations s.violation_history dets s.zones
        s.selected_zone_ids (some (frame_num : Int))
      let s := { s with violation_history := bd.1 }
      let confirm_required := confirmRequired (cfg.frame_skip : Int) cfg.confirmation_base
      let ca := processViolationList confirm_required
        s.violation_history s.frame_buffer frame_num
        s.saved_violation_snapshots s.violation_count bd.2
      let s := { s with saved_violation_snapshots := ca.saved
                        violation_count := ca.violation_count }
      (s, { frame_num := frame_num, detections := dets
            violations := ca.annotated, lane_boundaries := some lane_boundaries })

/-- Run process_frame over a sequence of (frame, frame index) pairs,
keeping only the evolving state. -/
def runPipeline {Frame δ : Type} (cfg : PipelineConfig)
    (detect : δ → Frame → δ × List Detection) (s : PipelineState Frame δ)
    (frames : List (Frame × Nat)) : PipelineState Frame δ :=
  frames.foldl (fun s p => (process_frame cfg detect s p.1 p.2).1) s

/-! ## Shared concrete samples and auxiliary predicates -/

/-- The square zone of the spec scenarios: vertices (0,0) to (100,100),
reference canvas 100 by 100, allowing only cars. -/
def zoneSquare : Zone :=
  { zone_id := "z1", name := "Z"
    polygon := [(0, 0), (100, 0), (100, 100), (0, 100)]
    allowed_classes := ["car"], base_width := some 100, base_height := some 100 }

/-- A vehicle box whose bottom-centre (50, 50) lies inside zoneSquare. -/
def innerBox : ℚ × ℚ × ℚ × ℚ := (45, 40, 55, 50)

/-- A vehicle box whose bottom-centre (500, 500) lies outside zoneSquare. -/
def outerBox : ℚ × ℚ × ℚ × ℚ := (495, 490, 505, 500)

/-- A tracked truck detection sitting inside zoneSquare. -/
def truckDet : Detection :=
  { box := innerBox, center := (50, 45), confidence := 1, class_id := 7
    class_name := "truck", track_id := 1 }

/-- All tracks of a dict satisfy hits less than or equal to age. -/
def HitsLeAge (l : List (Nat × TrackedObject)) : Prop :=
  ∀ p ∈ l, p.2.hits ≤ p.2.age

/-! ## Dictionary lemmas -/

lemma dlookup_cons {α β : Type} [DecidableEq α] (k k' : α) (v : β) (l : List (α × β)) :
    dlookup k ((k', v) :: l) = if k' = k then some v else dlookup k l := rfl

lemma dlookup_mem {α β : Type} [DecidableEq α] {k : α} {l : List (α × β)} {v : β}
    (h : dlookup k l = some v) : (k, v) ∈ l := by
  induction l with
  | nil => simp [dlookup] at h
  | cons p rest ih =>
    obtain ⟨k', v'⟩ := p
    by_cases hk : k' = k
    · subst hk
      rw [dlookup_cons, if_pos rfl] at h
      simp [Option.some_inj.mp h]
    · rw [dlookup_cons, if_neg hk] at h
      exact List.mem_cons_of_mem _ (ih h)

lemma dlookup_eq_none {α β : Type} [DecidableEq α] {k : α} {l : List (α × β)}
    (h : ∀ p ∈ l, p.1 ≠ k) : dlookup k l = none := by
  induction l with
  | nil => rfl
  | cons p rest ih =>
    obtain ⟨k', v'⟩ := p
    rw [dlookup_cons, if_neg (h (k', v') (List.mem_cons_self _ _))]
    exact ih (fun q hq => h q (List.mem_cons_of_mem _ hq))

lemma keys_ne_of_dlookup_none {α β : Type} [DecidableEq α] {k : α}
    {l : List (α × β)} (h : dlookup k l = none) : ∀ p ∈ l, p.1 ≠ k := by
  induction l with
  | nil => intro p hp; simp at hp
  | cons q rest ih =>
    intro p hp
    obtain ⟨k', v'⟩ := q
    by_cases hk : k' = k
    · rw [dlookup_cons, if_pos hk] at h; cases h
    · rw [dlookup_cons, if_neg hk] at h
      rcases List.mem_cons.mp hp with rfl | hm
      · exact hk
      · exact ih h p hm

lemma dlookup_dinsert_self {α β : Type} [DecidableEq α] (l : List (α × β))
    (k : α) (v : β) : dlookup k (dinsert l k v) = some v := by
  unfold dinsert
  split
  · rename_i h
    induction l with
    | nil => simp at h
    | cons p rest ih =>
      obtain ⟨k', v'⟩ := p
      rw [List.map_cons]
      by_cases hk : k' = k
      · simp [hk, dlookup_cons]
      · simp only [show ((k', v') : α × β).1 = k' from rfl, if_neg hk, dlookup_cons]
        exact ih (by simpa [hk] using h)
  · rename_i h
    induction l with
    | nil => simp [dlookup]
    | cons p rest ih =>
      obtain ⟨k', v'⟩ := p
      have hk : ¬ (k' = k) := fun hEq => h (by simp [hEq])
      rw [List.cons_append, dlookup_cons, if_neg hk]
      exact ih (fun hAny => h (by simp at hAny ⊢; right; exact hAny))

lemma dlookup_dinsert_ne {α β : Type} [DecidableEq α] (l : List (α × β))
    (k k' : α) (v : β) (hne : k' ≠ k) :
    dlookup k (dinsert l k' v) = dlookup k l := by
  unfold dinsert
  split
  · rename_i h
    clear h
    induction l with
    | nil => rfl
    | cons p rest ih =>
      obtain ⟨k₀, v₀⟩ := p
      rw [List.map_cons]
      by_cases h0 : k₀ = k'
      · simp only [show ((k₀, v₀) : α × β).1 = k₀ from rfl, if_pos h0]
        rw [dlookup_cons, dlookup_cons, if_neg hne, if_neg (h0 ▸ hne)]
        exact ih
      · simp only [show ((k₀, v₀) : α × β).1 = k₀ from rfl, if_neg h0]
        rw [dlookup_cons, dlookup_cons]
        by_cases hk0 : k₀ = k
        · rw [if_pos hk0, if_pos hk0]
        · rw [if_neg hk0, if_neg hk0]
          exact ih
  · rename_i h
    clear h
    induction l with
    | nil => simp [dlookup, dlookup_cons, if_neg hne]
    | cons p rest ih =>
      obtain ⟨k₀, v₀⟩ := p
      rw [List.cons_append, dlookup_cons, dlookup_cons]
      by_cases hk0 : k₀ = k
      · rw [if_pos hk0, if_pos hk0]
      · rw [if_neg hk0, if_neg hk0]
        exact ih

lemma dkeys_nodup_dinsert {α β : Type} [DecidableEq α] (l : List (α × β))
    (k : α) (v : β) (h : (dkeys l).Nodup) : (dkeys (dinsert l k v)).Nodup := by
  unfold dinsert
  split
  · have heq : dkeys (l.map (fun p => if p.1 = k then (k, v) else p)) = dkeys l := by
      unfold dkeys
      rw [List.map_map]
      apply List.map_congr_left
      intro p _
      by_cases hp : p.1 = k
      · simp [hp]
      · simp [hp]
    rw [heq]
    exact h
  · rename_i hAny
    unfold dkeys at h ⊢
    rw [List.map_append]
    simp only [List.map_cons, List.map_nil]
    apply List.Nodup.append h (List.nodup_singleton k)
    intro a ha hb
    simp only [List.mem_singleton] at hb
    subst hb
    rcases List.mem_map.mp ha with ⟨p, hp, hpk⟩
    exact hAny (by simp only [List.any_eq_true]; exact ⟨p, hp, by simp [hpk]⟩)

/-! ## Claim C1: greedy matching and new-track creation -/

/-- C1: the claim states that exactly the unmatched detections spawn new
tracks with end-of-update state age=1, hits=1, consecutiveMisses=0, and
that a matched detection never also creates a track.  The code contradicts
this: matched_detection_indices is never populated, so the single
detection below, although matched to existing track 1, also spawns track 2;
moreover the miss-marking loop runs over the freshly inserted tracks, so
the newborn ends the update call at age=2, hits=1, consecutiveMisses=1. -/
theorem c1_matched_detection_spawns_duplicate_track :
    (match_detections ((SimpleTracker.init 100 30 3).update [sampleDet (0, 0)] 0)
        [sampleDet (0, 0)]).1 = [(1, 0)]
    ∧ dkeys (((SimpleTracker.init 100 30 3).update [sampleDet (0, 0)] 0).update
        [sampleDet (0, 0)] 1).tracks = [1, 2]
    ∧ (((SimpleTracker.init 100 30 3).update [sampleDet (0, 0)] 0).update
        [sampleDet (0, 0)] 1).tracks.map
        (fun p => (p.1, p.2.age, p.2.hits, p.2.consecutive_misses))
        = [(1, 3, 2, 0), (2, 2, 1, 1)]
    ∧ ((SimpleTracker.init 100 30 3).update [sampleDet (0, 0)] 0).tracks.map
        (fun p => (p.1, p.2.age, p.2.hits, p.2.consecutive_misses))
        = [(1, 2, 1, 1)] := by
  norm_num [SimpleTracker.update, SimpleTracker.init, match_detections, findBestMatch,
    distSq, updateMatched, createNewTracks, markMissing, dinsert, dlookup, newTrack,
    updatedTrack, sampleDet, dkeys, List.enum, List.enumFrom]

/-! ## Claim C2: violation record updates -/

/-- C2 (amended): on a violating frame, consecutiveViolations and
totalViolations each increase by 1 and firstViolationFrame is set to the
current frame index only when it is currently unset; on a non-violating
frame, consecutiveViolations resets to exactly 0 while totalViolations and
firstViolationFrame are left unchanged, so a later streak keeps the
original first frame. -/
theorem c2_violation_record_update (history : List (Int × ViolationRecord))
    (box : ℚ × ℚ × ℚ × ℚ) (tid : Int) (zm : ZoneManager) (vclass : String)
    (selected : List String) (fn : Option Int) :
    ((detect_violation history box tid zm vclass selected fn).2.is_violating = true →
      dlookup tid (detect_violation history box tid zm vclass selected fn).1
        = some { consecutive_violations :=
                   ((dlookup tid history).getD ⟨0, 0, none⟩).consecutive_violations + 1
                 total_violations :=
                   ((dlookup tid history).getD ⟨0, 0, none⟩).total_violations + 1
                 first_violation_frame :=
                   if ((dlookup tid history).getD ⟨0, 0, none⟩).first_violation_frame
                       = none then fn
                   else ((dlookup tid history).getD ⟨0, 0, none⟩).first_violation_frame })
    ∧ ((detect_violation history box tid zm vclass selected fn).2.is_violating = false →
      dlookup tid (detect_violation history box tid zm vclass selected fn).1
        = some { consecutive_violations := 0
                 total_violations :=
                   ((dlookup tid history).getD ⟨0, 0, none⟩).total_violations
                 first_violation_frame :=
                   ((dlookup tid history).getD ⟨0, 0, none⟩).first_violation_frame }) := by
  constructor
  · intro hv
    rcases Decidable.em (vclass ≠ "" ∧ selected ≠ []) with hb | hb
    · simp only [detect_violation, Bool.false_or] at hv ⊢
      rw [if_pos hb] at hv ⊢
      simp only [Option.map_some', Option.getD_some] at hv ⊢
      rw [dlookup_dinsert_self, if_pos hv]
    · simp only [detect_violation, Bool.false_or] at hv
      rw [if_neg hb] at hv
      simp at hv
  · intro hv
    rcases Decidable.em (vclass ≠ "" ∧ selected ≠ []) with hb | hb
    · simp only [detect_violation, Bool.false_or] at hv ⊢
      rw [if_pos hb] at hv ⊢
      simp only [Option.map_some', Option.getD_some] at hv ⊢
      rw [dlookup_dinsert_self, if_neg (by simp [hv])]
    · simp only [detect_violation, Bool.false_or] at hv ⊢
      rw [if_neg hb] at hv ⊢
      simp only [Option.map_none', Option.getD_none] at hv ⊢
      rw [dlookup_dinsert_self, if_neg (by simp)]

/-- Witness for c2_violation_record_update at a concrete violating input. -/
theorem c2_violation_record_update_witness :
    dlookup 7 (detect_violation [] innerBox 7 [zoneSquare] "truck" ["z1"] (some 1)).1
      = some { consecutive_violations := 1, total_violations := 1
               first_violation_frame := some 1 } :=
  (c2_violation_record_update [] innerBox 7 [zoneSquare] "truck" ["z1"] (some 1)).1
    (by
      norm_num [detect_violation, check_violation, get_zones_at_point, get_zone,
        Zone.contains_point, pointInPolygon, polygonEdges, onSegment, edgeCrosses,
        bboxMin, bboxMax, Zone.is_vehicle_allowed, get_vehicle_bottom_center,
        dinsert, dlookup, zoneSquare, innerBox, outerBox]
      all_goals decide)

/-- C2 counterexample: the original claim requires a streak that begins
after a non-violating frame to record its own first frame.  Track 7
violates at frame 1, is clean at frame 2, and violates again at frame 3:
the record keeps firstViolationFrame = 1 instead of 3, because the source
only assigns the field when it is still None and never clears it. -/
theorem c2_first_frame_not_reset_counterexample :
    (detect_violation
        (detect_violation [] innerBox 7 [zoneSquare] "truck" ["z1"] (some 1)).1
        outerBox 7 [zoneSquare] "truck" ["z1"] (some 2)).2.is_violating = false
    ∧ (detect_violation
        (detect_violation
          (detect_violation [] innerBox 7 [zoneSquare] "truck" ["z1"] (some 1)).1
          outerBox 7 [zoneSquare] "truck" ["z1"] (some 2)).1
        innerBox 7 [zoneSquare] "truck" ["z1"] (some 3)).2.is_violating = true
    ∧ (detect_violation
        (detect_violation
          (detect_violation [] innerBox 7 [zoneSquare] "truck" ["z1"] (some 1)).1
          outerBox 7 [zoneSquare] "truck" ["z1"] (some 2)).1
        innerBox 7 [zoneSquare] "truck" ["z1"] (some 3)).1
        = [(7, ⟨1, 2, some 1⟩)]
    ∧ ¬ (dlookup 7 (detect_violation
        (detect_violation
          (detect_violation [] innerBox 7 [zoneSquare] "truck" ["z1"] (some 1)).1
          outerBox 7 [zoneSquare] "truck" ["z1"] (some 2)).1
        innerBox 7 [zoneSquare] "truck" ["z1"] (some 3)).1
          = some ⟨1, 2, some 3⟩) := by
  norm_num [detect_violation, check_violation, get_zones_at_point, get_zone,
    Zone.contains_point, pointInPolygon, polygonEdges, onSegment, edgeCrosses,
    bboxMin, bboxMax, Zone.is_vehicle_allowed, get_vehicle_bottom_center,
    dinsert, dlookup, zoneSquare, innerBox, outerBox]
  all_goals decide

/-! ## Claim C3: zone rescale round trip -/

/-- C3: the claim states the round-trip law: rescaling a zone that has a
positive reference canvas to (200, 200) and back to the original
(100, 100) should return every vertex to within rounding tolerance of its
original position.  Evaluating the code: the first rescale doubles the
vertices, but since rescale_to never updates base_width and base_height,
the second call scales by 100/100 = 1 and leaves the doubled polygon in
place, 100 pixels away from the original vertices. -/
theorem c3_rescale_round_trip_fails :
    (rescale_to [zoneSquare] 200 200).map Zone.polygon
        = [[(0, 0), (200, 0), (200, 200), (0, 200)]]
    ∧ (rescale_to (rescale_to [zoneSquare] 200 200) 100 100).map Zone.polygon
        = [[(0, 0), (200, 0), (200, 200), (0, 200)]]
    ∧ (rescale_to (rescale_to [zoneSquare] 200 200) 100 100).map Zone.polygon
        ≠ [zoneSquare.polygon]
    ∧ (rescale_to (rescale_to [zoneSquare] 200 200) 100 100).map Zone.base_width
        = [some 100]
    ∧ zoneSquare.base_width = some 100 ∧ zoneSquare.base_height = some 100 := by
  norm_num [rescale_to, Zone.rescaled, pyRound, zoneSquare, round_eq]

/-! ## Claim C4: adaptive confirmation threshold -/

/-- C4: for every sampling interval K at least 1 and base at least 1, the
orchestrator threshold equals the base when K is at most 2, equals 2 for
K between 3 and 5, and equals 1 for K above 5 (so K = 6 confirms a single
observed violation); and an entry is marked confirmed exactly when it is
violating with consecutiveViolations at least the threshold. -/
theorem c4_confirmation_threshold (K base : Int) (hK : 1 ≤ K) (hbase : 1 ≤ base) :
    ((K ≤ 2 → confirmRequired K base = base)
      ∧ (3 ≤ K → K ≤ 5 → confirmRequired K base = 2)
      ∧ (5 < K → confirmRequired K base = 1))
    ∧ confirmRequired 6 base = 1
    ∧ ∀ (v : Bool) (c : Int),
        isConfirmed v c (confirmRequired K base) = true
          ↔ (v = true ∧ confirmRequired K base ≤ c) := by
  refine ⟨⟨?_, ?_, ?_⟩, ?_, ?_⟩
  · intro h2
    unfold confirmRequired
    rw [if_neg (by omega), if_pos h2]
    omega
  · intro h3 h5
    unfold confirmRequired
    rw [if_neg (by omega), if_neg (by omega), if_pos h5]
  · intro h5
    unfold confirmRequired
    rw [if_neg (by omega), if_neg (by omega), if_neg (by omega)]
  · unfold confirmRequired
    norm_num
  · intro v c
    unfold isConfirmed
    simp [Bool.and_eq_true, decide_eq_true_iff]

/-- Witness for c4_confirmation_threshold: at K = 6 with the default base 3
the threshold is 1. -/
theorem c4_confirmation_threshold_witness : confirmRequired 6 3 = 1 :=
  (c4_confirmation_threshold 6 3 (by norm_num) (by norm_num)).2.1

/-! ## Claim C9: unknown zone id lookups -/

/-- C9 counterexample: the claim states that a membership or class-allowed
query against an id absent from the store raises an error rather than
returning a value.  The code instead returns plain values: get_zone yields
None for the unknown id "zx", and check_violation restricted to that id
filters every zone away and returns the ordinary non-violating dict. -/
theorem c9_unknown_zone_returns_value_counterexample :
    get_zone [zoneSquare] "zx" = none
    ∧ check_violation [zoneSquare] (50, 50) "truck" ["zx"]
        = { is_violating := false, violation_type := none, zones := []
            total_zones := none } := by
  norm_num [detect_violation, check_violation, get_zones_at_point, get_zone,
    Zone.contains_point, pointInPolygon, polygonEdges, onSegment, edgeCrosses,
    bboxMin, bboxMax, Zone.is_vehicle_allowed, get_vehicle_bottom_center,
    dinsert, dlookup, zoneSquare, innerBox, outerBox]
  all_goals decide

/-- C9 (amended): looking up an id absent from the zone store is a quiet
no-match, not an error: get_zone returns None, and check_violation with
selected ids disjoint from the store returns the non-violating dict. -/
theorem c9_unknown_zone_id_quiet (zm : ZoneManager) (zid : String)
    (center : ℚ × ℚ) (vclass : String) (selected : List String)
    (hzid : ∀ z ∈ zm, z.zone_id ≠ zid)
    (hsel : selected ≠ [])
    (hdisj : ∀ z ∈ zm, z.zone_id ∉ selected) :
    get_zone zm zid = none
    ∧ check_violation zm center vclass selected
        = { is_violating := false, violation_type := none, zones := []
            total_zones := none } := by
  constructor
  · unfold get_zone
    rw [List.find?_eq_none]
    intro z hz
    simpa using hzid z hz
  · have hempty : ((get_zones_at_point zm center).filter
        (fun z => decide (z.zone_id ∈ selected))) = [] := by
      rw [List.filter_eq_nil_iff]
      intro z hz
      have hzm : z ∈ zm := List.mem_of_mem_filter hz
      simpa using hdisj z hzm
    simp only [check_violation]
    rw [if_pos hsel, hempty]
    simp

/-- Witness for c9_unknown_zone_id_quiet at the concrete store. -/
theorem c9_unknown_zone_id_quiet_witness :
    get_zone [zoneSquare] "zy" = none
    ∧ check_violation [zoneSquare] (50, 50) "car" ["zy"]
        = { is_violating := false, violation_type := none, zones := []
            total_zones := none } :=
  c9_unknown_zone_id_quiet [zoneSquare] "zy" (50, 50) "car" ["zy"]
    (by decide) (by decide) (by decide)

/-! ## Claim C6: hits never exceed age -/

lemma hitsLeAge_updatedTrack (tr : TrackedObject) (det : Detection) (ts : ℚ)
    (h : tr.hits ≤ tr.age) :
    (updatedTrack tr det ts).hits ≤ (updatedTrack tr det ts).age := by
  simp only [updatedTrack]
  split <;> simp <;> omega

lemma hitsLeAge_updateMatched (l : List (Nat × TrackedObject))
    (matched : List (Nat × Nat)) (dets : List Detection) (ts : ℚ)
    (h : HitsLeAge l) : HitsLeAge (updateMatched l matched dets ts) := by
  intro p hp
  simp only [updateMatched, List.mem_map] at hp
  obtain ⟨q, hq, rfl⟩ := hp
  cases hmatch : (dlookup q.1 matched).bind (fun i => dets[i]?) with
  | none => simp only [hmatch]; exact h q hq
  | some det => simp only [hmatch]; exact hitsLeAge_updatedTrack q.2 det ts (h q hq)

lemma hitsLeAge_dinsert (l : List (Nat × TrackedObject)) (k : Nat)
    (v : TrackedObject) (h : HitsLeAge l) (hv : v.hits ≤ v.age) :
    HitsLeAge (dinsert l k v) := by
  intro p hp
  unfold dinsert at hp
  split at hp
  · simp only [List.mem_map] at hp
    obtain ⟨q, hq, rfl⟩ := hp
    by_cases hk : q.1 = k
    · simp only [if_pos hk]; exact hv
    · simp only [if_neg hk]; exact h q hq
  · rcases List.mem_append.mp hp with hm | hm
    · exact h p hm
    · simp only [List.mem_singleton] at hm
      subst hm
      exact hv

lemma hitsLeAge_createNewTracks (ts : ℚ) (mdi : List Nat) :
    ∀ (idets : List (Nat × Detection)) (acc : List (Nat × TrackedObject) × Nat),
      HitsLeAge acc.1 → HitsLeAge (createNewTracks ts mdi acc idets).1 := by
  intro idets
  induction idets with
  | nil => intro acc h; exact h
  | cons idet rest ih =>
    intro acc h
    simp only [createNewTracks, List.foldl_cons]
    by_cases hmem : idet.1 ∈ mdi
    · rw [if_pos hmem]
      exact ih acc h
    · rw [if_neg hmem]
      exact ih _ (hitsLeAge_dinsert _ _ _ h (by simp [newTrack]))

lemma hitsLeAge_markMissing (l : List (Nat × TrackedObject))
    (matched : List (Nat × Nat)) (h : HitsLeAge l) :
    HitsLeAge (markMissing l matched) := by
  intro p hp
  simp only [markMissing, List.mem_map] at hp
  obtain ⟨q, hq, rfl⟩ := hp
  by_cases hm : (dlookup q.1 matched).isSome
  · simp only [if_pos hm]; exact h q hq
  · simp only [if_neg hm]
    have := h q hq
    show q.2.hits ≤ q.2.age + 1
    omega

/-- The tracks dict of update, written out stage by stage. -/
lemma update_tracks_eq (t : SimpleTracker) (dets : List Detection) (ts : ℚ) :
    (t.update dets ts).tracks
      = (markMissing (createNewTracks ts []
          (updateMatched t.tracks (match_detections t dets).1 dets ts,
            t.next_track_id) dets.enum).1
          (match_detections t dets).1).filter
        (fun p => p.2.age ≤ t.max_age) := rfl

lemma hitsLeAge_update (t : SimpleTracker) (dets : List Detection) (ts : ℚ)
    (h : HitsLeAge t.tracks) : HitsLeAge (t.update dets ts).tracks := by
  rw [update_tracks_eq]
  intro p hp
  exact hitsLeAge_markMissing _ _
    (hitsLeAge_createNewTracks ts [] dets.enum _
      (hitsLeAge_updateMatched _ _ _ _ h)) p (List.mem_of_mem_filter hp)

/-- C6: after any sequence of update calls starting from a tracker with an
empty track dict (fresh from __init__ or after reset), every live track
satisfies hits at most age. -/
theorem c6_hits_le_age (s0 : SimpleTracker) (h0 : s0.tracks = [])
    (inputs : List (List Detection × ℚ)) (tid : Nat) (tr : TrackedObject)
    (h : dlookup tid (runUpdates s0 inputs).tracks = some tr) :
    tr.hits ≤ tr.age := by
  have hrun : ∀ (l : List (List Detection × ℚ)) (s : SimpleTracker),
      HitsLeAge s.tracks → HitsLeAge (runUpdates s l).tracks := by
    intro l
    induction l with
    | nil => intro s hs; exact hs
    | cons p rest ih => intro s hs; exact ih _ (hitsLeAge_update s p.1 p.2 hs)
  have hall := hrun inputs s0 (by rw [h0]; intro p hp; simp at hp)
  exact hall _ (dlookup_mem h)

/-- Witness for c6_hits_le_age after one update call on a fresh tracker. -/
theorem c6_hits_le_age_witness :
    (⟨1, [sampleDet (0, 0)], [0], [(0, 0)], 2, 1, 1⟩ : TrackedObject).hits
      ≤ (⟨1, [sampleDet (0, 0)], [0], [(0, 0)], 2, 1, 1⟩ : TrackedObject).age :=
  c6_hits_le_age (SimpleTracker.init 100 30 3) rfl [([sampleDet (0, 0)], 0)] 1 _ rfl

/-! ## Claim C7: eviction of aged tracks -/

lemma dlookup_updateMatched_unmatched (l : List (Nat × TrackedObject))
    (matched : List (Nat × Nat)) (dets : List Detection) (ts : ℚ) (tid : Nat)
    (hm : dlookup tid matched = none) :
    dlookup tid (updateMatched l matched dets ts) = dlookup tid l := by
  induction l with
  | nil => rfl
  | cons p rest ih =>
    obtain ⟨k, tr⟩ := p
    simp only [updateMatched, List.map_cons]
    by_cases hk : k = tid
    · subst hk
      simp only [hm, Option.none_bind]
      rw [dlookup_cons, dlookup_cons, if_pos rfl, if_pos rfl]
    · cases hmatch : (dlookup k matched).bind (fun i => dets[i]?) with
      | none =>
        simp only [hmatch]
        rw [dlookup_cons, dlookup_cons, if_neg hk, if_neg hk]
        exact ih
      | some det =>
        simp only [hmatch]
        rw [dlookup_cons, dlookup_cons, if_neg hk, if_neg hk]
        exact ih

lemma dlookup_createNewTracks_lt (ts : ℚ) :
    ∀ (idets : List (Nat × Detection)) (acc : List (Nat × TrackedObject) × Nat)
      (tid : Nat), tid < acc.2 →
      dlookup tid (createNewTracks ts [] acc idets).1 = dlookup tid acc.1 := by
  intro idets
  induction idets with
  | nil => intro acc tid _; rfl
  | cons idet rest ih =>
    intro acc tid h
    simp only [createNewTracks, List.foldl_cons]
    rw [if_neg (List.not_mem_nil idet.1)]
    have step : dlookup tid (dinsert acc.1 acc.2 (newTrack acc.2 idet.2 ts))
        = dlookup tid acc.1 :=
      dlookup_dinsert_ne _ _ _ _ (by omega)
    have hrec := ih (dinsert acc.1 acc.2 (newTrack acc.2 idet.2 ts), acc.2 + 1)
      tid (by simp; omega)
    exact hrec.trans step

lemma createNewTracks_next_mono (ts : ℚ) (mdi : List Nat) :
    ∀ (idets : List (Nat × Detection)) (acc : List (Nat × TrackedObject) × Nat),
      acc.2 ≤ (createNewTracks ts mdi acc idets).2 := by
  intro idets
  induction idets with
  | nil => intro acc; exact le_refl _
  | cons idet rest ih =>
    intro acc
    simp only [createNewTracks, List.foldl_cons]
    by_cases hmem : idet.1 ∈ mdi
    · rw [if_pos hmem]; exact ih acc
    · rw [if_neg hmem]
      exact le_trans (Nat.le_succ acc.2)
        (ih (dinsert acc.1 acc.2 (newTrack acc.2 idet.2 ts), acc.2 + 1))

lemma dlookup_markMissing_unmatched (l : List (Nat × TrackedObject))
    (matched : List (Nat × Nat)) (tid : Nat)
    (hm : dlookup tid matched = none) :
    dlookup tid (markMissing l matched)
      = (dlookup tid l).map (fun tr =>
          { tr with consecutive_misses := tr.consecutive_misses + 1
                    age := tr.age + 1 }) := by
  induction l with
  | nil => rfl
  | cons p rest ih =>
    obtain ⟨k, tr⟩ := p
    simp only [markMissing, List.map_cons]
    by_cases hk : k = tid
    · subst hk
      simp only [hm, Option.isSome_none, Bool.false_eq_true, if_false]
      rw [dlookup_cons, dlookup_cons, if_pos rfl, if_pos rfl]
      rfl
    · by_cases hs : (dlookup k matched).isSome
      · simp only [if_pos hs]
        rw [dlookup_cons, dlookup_cons, if_neg hk, if_neg hk]
        exact ih
      · simp only [if_neg hs]
        rw [dlookup_cons, dlookup_cons, if_neg hk, if_neg hk]
        exact ih

lemma dlookup_filter_of_nodup (l : List (Nat × TrackedObject)) (tid : Nat)
    (pred : Nat × TrackedObject → Bool) (hnd : (dkeys l).Nodup) :
    dlookup tid (l.filter pred)
      = (dlookup tid l).bind (fun tr => if pred (tid, tr) then some tr else none) := by
  induction l with
  | nil => rfl
  | cons p rest ih =>
    obtain ⟨k, tr⟩ := p
    have hnd' : (dkeys rest).Nodup := (List.nodup_cons.mp hnd).2
    have hknotin : k ∉ dkeys rest := (List.nodup_cons.mp hnd).1
    by_cases hk : k = tid
    · subst hk
      rw [dlookup_cons, if_pos rfl]
      cases hp : pred (k, tr) with
      | true =>
        rw [List.filter_cons, if_pos hp, dlookup_cons, if_pos rfl]
        simp [hp]
      | false =>
        rw [List.filter_cons, if_neg (by simp [hp])]
        have hnone : dlookup k (rest.filter pred) = none :=
          dlookup_eq_none (fun q hq hq1 =>
            hknotin (hq1 ▸ List.mem_map_of_mem Prod.fst (List.mem_of_mem_filter hq)))
        rw [hnone]
        simp [hp]
    · rw [dlookup_cons, if_neg hk]
      cases hp : pred (k, tr) with
      | true =>
        rw [List.filter_cons, if_pos hp, dlookup_cons, if_neg hk]
        exact ih hnd'
      | false =>
        rw [List.filter_cons, if_neg (by simp [hp])]
        exact ih hnd'

lemma dkeys_updateMatched (l : List (Nat × TrackedObject))
    (matched : List (Nat × Nat)) (dets : List Detection) (ts : ℚ) :
    dkeys (updateMatched l matched dets ts) = dkeys l := by
  unfold updateMatched dkeys
  rw [List.map_map]
  apply List.map_congr_left
  intro p _
  cases hm : (dlookup p.1 matched).bind (fun i => dets[i]?) <;> simp [hm]

lemma dkeys_markMissing (l : List (Nat × TrackedObject))
    (matched : List (Nat × Nat)) :
    dkeys (markMissing l matched) = dkeys l := by
  unfold markMissing dkeys
  rw [List.map_map]
  apply List.map_congr_left
  intro p _
  by_cases hs : (dlookup p.1 matched).isSome <;> simp [hs]

lemma dkeys_nodup_createNewTracks (ts : ℚ) (mdi : List Nat) :
    ∀ (idets : List (Nat × Detection)) (acc : List (Nat × TrackedObject) × Nat),
      (dkeys acc.1).Nodup → (dkeys (createNewTracks ts mdi acc idets).1).Nodup := by
  intro idets
  induction idets with
  | nil => intro acc h; exact h
  | cons idet rest ih =>
    intro acc h
    simp only [createNewTracks, List.foldl_cons]
    by_cases hmem : idet.1 ∈ mdi
    · rw [if_pos hmem]; exact ih acc h
    · rw [if_neg hmem]
      exact ih _ (dkeys_nodup_dinsert _ _ _ h)

lemma dkeys_nodup_filter (l : List (Nat × TrackedObject))
    (pred : Nat × TrackedObject → Bool) (h : (dkeys l).Nodup) :
    (dkeys (l.filter pred)).Nodup :=
  List.Nodup.sublist (List.Sublist.map Prod.fst (List.filter_sublist l)) h

lemma keysNodup_update (t : SimpleTracker) (dets : List Detection) (ts : ℚ)
    (h : (dkeys t.tracks).Nodup) : (dkeys (t.update dets ts).tracks).Nodup := by
  rw [update_tracks_eq]
  apply dkeys_nodup_filter
  rw [dkeys_markMissing]
  apply dkeys_nodup_createNewTracks
  rw [dkeys_updateMatched]
  exact h

lemma update_next_mono (t : SimpleTracker) (dets : List Detection) (ts : ℚ) :
    t.next_track_id ≤ (t.update dets ts).next_track_id :=
  createNewTracks_next_mono ts [] dets.enum
    (updateMatched t.tracks (match_detections t dets).1 dets ts, t.next_track_id)

lemma update_age_le_max (t : SimpleTracker) (dets : List Detection) (ts : ℚ) :
    ∀ p ∈ (t.update dets ts).tracks, p.2.age ≤ t.max_age := by
  intro p hp
  rw [update_tracks_eq] at hp
  simpa using List.of_mem_filter hp

/-- One update call on a track that the matcher left unmatched: the track
is either evicted or aged by exactly one with its misses bumped. -/
lemma miss_step (t : SimpleTracker) (dets : List Detection) (ts : ℚ) (tid : Nat)
    (hm : dlookup tid (match_detections t dets).1 = none)
    (hlt : tid < t.next_track_id) (hnd : (dkeys t.tracks).Nodup) :
    dlookup tid (t.update dets ts).tracks
      = (dlookup tid t.tracks).bind (fun tr =>
          if tr.age + 1 ≤ t.max_age then
            some { tr with consecutive_misses := tr.consecutive_misses + 1
                           age := tr.age + 1 }
          else none) := by
  rw [update_tracks_eq]
  have hnd3 : (dkeys (markMissing (createNewTracks ts []
      (updateMatched t.tracks (match_detections t dets).1 dets ts,
        t.next_track_id) dets.enum).1 (match_detections t dets).1)).Nodup := by
    rw [dkeys_markMissing]
    apply dkeys_nodup_createNewTracks
    rw [dkeys_updateMatched]
    exact hnd
  rw [dlookup_filter_of_nodup _ _ _ hnd3]
  rw [dlookup_markMissing_unmatched _ _ _ hm]
  rw [dlookup_createNewTracks_lt ts dets.enum _ tid hlt]
  rw [dlookup_updateMatched_unmatched _ _ _ _ _ hm]
  cases h0 : dlookup tid t.tracks with
  | none => rfl
  | some tr =>
    simp only [Option.map_some', Option.some_bind]
    by_cases hcond : tr.age + 1 ≤ t.max_age
    · rw [if_pos (by simpa using hcond), if_pos hcond]
    · rw [if_neg (by simpa using hcond), if_neg hcond]

/-- Along a run in which the track stays unmatched, a surviving entry has
aged by exactly the number of updates and, after at least one update,
respects the max-age bound. -/
lemma run_miss_age :
    ∀ (inputs : List (List Detection × ℚ)) (s : SimpleTracker) (tid : Nat)
      (tr' : TrackedObject),
      tid < s.next_track_id → (dkeys s.tracks).Nodup →
      unmatchedThroughout tid s inputs = true →
      dlookup tid (runUpdates s inputs).tracks = some tr' →
      (∃ tr0, dlookup tid s.tracks = some tr0
          ∧ tr0.age + inputs.length = tr'.age)
        ∧ (inputs ≠ [] → tr'.age ≤ s.max_age) := by
  intro inputs
  induction inputs with
  | nil =>
    intro s tid tr' _ _ _ hlook
    exact ⟨⟨tr', hlook, by simp⟩, fun h => absurd rfl h⟩
  | cons p rest ih =>
    intro s tid tr' hlt hnd hun hlook
    obtain ⟨d, ts⟩ := p
    simp only [unmatchedThroughout, Bool.and_eq_true, Option.isNone_iff_eq_none] at hun
    obtain ⟨hm, hun'⟩ := hun
    have hlook' : dlookup tid (runUpdates (s.update d ts) rest).tracks = some tr' :=
      hlook
    have hlt' : tid < (s.update d ts).next_track_id :=
      lt_of_lt_of_le hlt (update_next_mono s d ts)
    have hnd' := keysNodup_update s d ts hnd
    obtain ⟨⟨tr1, hl1, hage1⟩, hbound⟩ := ih (s.update d ts) tid tr' hlt' hnd' hun' hlook'
    rw [miss_step s d ts tid hm hlt hnd] at hl1
    cases h0 : dlookup tid s.tracks with
    | none => rw [h0] at hl1; simp at hl1
    | some tr0 =>
      rw [h0] at hl1
      simp only [Option.some_bind] at hl1
      by_cases hcond : tr0.age + 1 ≤ s.max_age
      · rw [if_pos hcond] at hl1
        have htr1 : tr1 = { tr0 with consecutive_misses := tr0.consecutive_misses + 1
                                     age := tr0.age + 1 } :=
          (Option.some_inj.mp hl1).symm
        have htr1age : tr1.age = tr0.age + 1 := by rw [htr1]
        constructor
        · exact ⟨tr0, rfl, by simp only [List.length_cons]; omega⟩
        · intro _
          rcases eq_or_ne rest [] with hr | hr
          · subst hr
            have : dlookup tid (s.update d ts).tracks = some tr' := hlook'
            have hmem := dlookup_mem this
            exact update_age_le_max s d ts _ hmem
          · have := hbound hr
            simpa using this
      · rw [if_neg hcond] at hl1
        cases hl1

lemma dlookup_filter_none (l : List (Nat × TrackedObject)) (tid : Nat)
    (pred : Nat × TrackedObject → Bool) (h : dlookup tid l = none) :
    dlookup tid (l.filter pred) = none :=
  dlookup_eq_none (fun p hp =>
    keys_ne_of_dlookup_none h p (List.mem_of_mem_filter hp))

/-- C7: after every update call every surviving track has age at most
maxAge, and a track (id below the id counter, in a dict with distinct
keys, as every reachable tracker state satisfies) that is matched by no
detection for maxAge + 1 consecutive update calls is afterwards absent
from the live track set and from the active set. -/
theorem c7_track_eviction :
    (∀ (t : SimpleTracker) (dets : List Detection) (ts : ℚ),
        ∀ p ∈ (t.update dets ts).tracks, p.2.age ≤ t.max_age)
    ∧ (∀ (s : SimpleTracker) (tid : Nat) (inputs : List (List Detection × ℚ)),
        tid < s.next_track_id → (dkeys s.tracks).Nodup →
        s.max_age + 1 ≤ inputs.length →
        unmatchedThroughout tid s inputs = true →
        dlookup tid (runUpdates s inputs).tracks = none
          ∧ dlookup tid (runUpdates s inputs).get_active_tracks = none) := by
  constructor
  · exact update_age_le_max
  · intro s tid inputs hlt hnd hlen hun
    have hmain : dlookup tid (runUpdates s inputs).tracks = none := by
      cases h : dlookup tid (runUpdates s inputs).tracks with
      | none => rfl
      | some tr' =>
        obtain ⟨⟨tr0, _, hage⟩, hbound⟩ := run_miss_age inputs s tid tr' hlt hnd hun h
        have hne : inputs ≠ [] := by
          intro he
          rw [he] at hlen
          simp at hlen
        have h1 : tr'.age ≤ s.max_age := hbound hne
        omega
    exact ⟨hmain, dlookup_filter_none _ _ _ hmain⟩

/-- Witness for c7_track_eviction: a tracker with maxAge 2 holding track 1
loses it after three update calls with empty detection lists. -/
theorem c7_track_eviction_witness :
    dlookup 1 (runUpdates
        { max_distance := 100, max_age := 2, min_hits := 3, next_track_id := 2
          tracks := [(1, ⟨1, [], [], [(0, 0)], 1, 1, 0⟩)] }
        [([], 0), ([], 1), ([], 2)]).tracks = none
    ∧ dlookup 1 (runUpdates
        { max_distance := 100, max_age := 2, min_hits := 3, next_track_id := 2
          tracks := [(1, ⟨1, [], [], [(0, 0)], 1, 1, 0⟩)] }
        [([], 0), ([], 1), ([], 2)]).get_active_tracks = none :=
  c7_track_eviction.2
    { max_distance := 100, max_age := 2, min_hits := 3, next_track_id := 2
      tracks := [(1, ⟨1, [], [], [(0, 0)], 1, 1, 0⟩)] }
    1 [([], 0), ([], 1), ([], 2)] (by decide) (by decide) (by decide) (by decide)

/-! ## Claim C10: skipped frames still feed the retention buffer -/

/-- C10: a frame whose index is not a multiple of the frame-skip interval
yields the empty results dict and changes nothing in the pipeline state
except the frame retention buffer, which receives the frame and then
evicts the oldest entries while the size exceeds the capacity. -/
theorem c10_skipped_frame {Frame δ : Type} (cfg : PipelineConfig)
    (detect : δ → Frame → δ × List Detection) (s : PipelineState Frame δ)
    (frame : Frame) (frame_num : Nat)
    (h : frame_num % cfg.frame_skip ≠ 0) :
    (process_frame cfg detect s frame frame_num).2
      = { frame_num := frame_num, detections := [], violations := []
          lane_boundaries := none }
    ∧ (process_frame cfg detect s frame frame_num).1
      = { s with frame_buffer :=
            record_frame_buffer s.frame_buffer frame_num frame cfg.frame_buffer_max }
    ∧ (process_frame cfg detect s frame frame_num).1.violation_history
        = s.violation_history
    ∧ (process_frame cfg detect s frame frame_num).1.det_state = s.det_state
    ∧ (process_frame cfg detect s frame frame_num).1.saved_violation_snapshots
        = s.saved_violation_snapshots
    ∧ (process_frame cfg detect s frame frame_num).1.violation_count
        = s.violation_count
    ∧ record_frame_buffer s.frame_buffer frame_num frame cfg.frame_buffer_max
        = (dinsert s.frame_buffer frame_num frame).drop
            ((dinsert s.frame_buffer frame_num frame).length - cfg.frame_buffer_max) := by
  refine ⟨?_, ?_, ?_, ?_, ?_, ?_, rfl⟩ <;>
    · simp only [process_frame]
      rw [if_pos h]

/-- Witness for c10_skipped_frame with frame skip 2 at frame index 1. -/
theorem c10_skipped_frame_witness :
    (process_frame ⟨2, 3, 12, 3⟩ (fun d _ => (d, []))
        (PipelineState.init 0 [zoneSquare] : PipelineState Nat Nat) 9 1).2
      = { frame_num := 1, detections := [], violations := []
          lane_boundaries := none } :=
  (c10_skipped_frame ⟨2, 3, 12, 3⟩ (fun d _ => (d, []))
    (PipelineState.init 0 [zoneSquare] : PipelineState Nat Nat) 9 1 (by decide)).1

/-! ## Claim C8: frames with zero configured zones -/

/-- C8 (amended): with zero zones configured, a frame that is due for
processing is skipped with a logged warning: process_frame returns the
same empty results value a skipped frame returns and runs neither
detection nor tracking nor violation evaluation (only the retention
buffer changes); no error is surfaced to the caller. -/
theorem c8_zero_zones_silent_skip {Frame δ : Type} (cfg : PipelineConfig)
    (detect : δ → Frame → δ × List Detection) (s : PipelineState Frame δ)
    (frame : Frame) (frame_num : Nat)
    (hz : s.zones = []) (hdue : frame_num % cfg.frame_skip = 0) :
    (process_frame cfg detect s frame frame_num).2
      = { frame_num := frame_num, detections := [], violations := []
          lane_boundaries := none }
    ∧ (process_frame cfg detect s frame frame_num).1
      = { s with frame_buffer :=
            record_frame_buffer s.frame_buffer frame_num frame cfg.frame_buffer_max }
    ∧ (process_frame cfg detect s frame frame_num).1.det_state = s.det_state
    ∧ (process_frame cfg detect s frame frame_num).1.violation_history
        = s.violation_history := by
  refine ⟨?_, ?_, ?_, ?_⟩ <;>
    · simp only [process_frame]
      rw [if_neg (by simp [hdue]), if_pos (by simp [hz])]

/-- Witness for c8_zero_zones_silent_skip at a concrete zero-zone state. -/
theorem c8_zero_zones_silent_skip_witness :
    (process_frame ⟨1, 3, 12, 3⟩ (fun d _ => (d, []))
        (PipelineState.init 0 [] : PipelineState Nat Nat) 9 0).2
      = { frame_num := 0, detections := [], violations := []
          lane_boundaries := none } :=
  (c8_zero_zones_silent_skip ⟨1, 3, 12, 3⟩ (fun d _ => (d, []))
    (PipelineState.init 0 [] : PipelineState Nat Nat) 9 0 rfl (by decide)).1

/-- C8 counterexample: the claim demands that a zero-zone frame be refused
as an explicit configuration error surfaced to the caller.  Evaluating the
code on a zero-zone state at a frame due for processing: process_frame
returns normally with the ordinary empty results value, indistinguishable
from a skipped frame apart from the frame index, and the only state change
is the retention buffer insert; the source raises nothing (it logs a
warning and returns), so no error reaches the caller. -/
theorem c8_zero_zones_counterexample :
    (process_frame ⟨1, 3, 12, 3⟩ (fun d _ => (d, [truckDet]))
        (PipelineState.init 0 [] : PipelineState Nat Nat) 9 0).2
      = { frame_num := 0, detections := [], violations := []
          lane_boundaries := none }
    ∧ (process_frame ⟨1, 3, 12, 3⟩ (fun d _ => (d, [truckDet]))
        (PipelineState.init 0 [] : PipelineState Nat Nat) 9 0).1
      = { (PipelineState.init 0 [] : PipelineState Nat Nat) with
          frame_buffer := [(0, 9)] } := by
  constructor
  · exact (c8_zero_zones_silent_skip _ _ _ _ _ rfl (by decide)).1
  · rfl

/-! ## Claim C5: one snapshot set per track id -/

lemma dinsert_append_of_dlookup_none {α β : Type} [DecidableEq α]
    (l : List (α × β)) (k : α) (v : β) (h : dlookup k l = none) :
    dinsert l k v = l ++ [(k, v)] := by
  unfold dinsert
  rw [if_neg]
  intro hA
  simp only [List.any_eq_true] at hA
  obtain ⟨p, hp, hk⟩ := hA
  exact keys_ne_of_dlookup_none h p hp (by simpa using hk)

lemma processViolationEntry_nodup {Frame : Type} (cr : Int)
    (hist : List (Int × ViolationRecord)) (buf : List (Nat × Frame)) (fn : Nat)
    (acc : ConfirmAcc) (v : ViolationResult) (h : (dkeys acc.saved).Nodup) :
    (dkeys (processViolationEntry cr hist buf fn acc v).saved).Nodup := by
  simp only [processViolationEntry]
  split
  · split
    · exact h
    · exact dkeys_nodup_dinsert _ _ _ h
  · exact h

lemma processViolation_fold_nodup {Frame : Type} (cr : Int)
    (hist : List (Int × ViolationRecord)) (buf : List (Nat × Frame)) (fn : Nat) :
    ∀ (vs : List ViolationResult) (acc : ConfirmAcc), (dkeys acc.saved).Nodup →
      (dkeys (vs.foldl (processViolationEntry cr hist buf fn) acc).saved).Nodup := by
  intro vs
  induction vs with
  | nil => intro acc h; exact h
  | cons v rest ih =>
    intro acc h
    exact ih _ (processViolationEntry_nodup cr hist buf fn acc v h)

lemma process_frame_saved_nodup {Frame δ : Type} (cfg : PipelineConfig)
    (detect : δ → Frame → δ × List Detection) (s : PipelineState Frame δ)
    (frame : Frame) (frame_num : Nat)
    (h : (dkeys s.saved_violation_snapshots).Nodup) :
    (dkeys (process_frame cfg detect s frame
        frame_num).1.saved_violation_snapshots).Nodup := by
  simp only [process_frame]
  repeat' split
  all_goals
    first
      | exact h
      | exact processViolation_fold_nodup _ _ _ _ _ _ h

/-- C5: starting from a fresh pipeline state, the saved-snapshot dict keeps
distinct track ids through any run (at most one snapshot set per track);
a confirmation step for a track that already has a snapshot leaves the
dict unchanged, and the first confirmation for a track appends exactly
its one snapshot entry. -/
theorem c5_snapshot_dedup {Frame δ : Type} :
    (∀ (cfg : PipelineConfig) (detect : δ → Frame → δ × List Detection) (d0 : δ)
        (zones : ZoneManager) (frames : List (Frame × Nat)),
      (dkeys (runPipeline cfg detect (PipelineState.init d0 zones)
          frames).saved_violation_snapshots).Nodup)
    ∧ (∀ (cr : Int) (hist : List (Int × ViolationRecord))
        (buf : List (Nat × Frame)) (fn : Nat) (acc : ConfirmAcc)
        (v : ViolationResult),
        isConfirmed v.is_violating (v.consecutive_violations : Int) cr = true →
        (dlookup v.track_id acc.saved).isSome = true →
        (processViolationEntry cr hist buf fn acc v).saved = acc.saved)
    ∧ (∀ (cr : Int) (hist : List (Int × ViolationRecord))
        (buf : List (Nat × Frame)) (fn : Nat) (acc : ConfirmAcc)
        (v : ViolationResult),
        isConfirmed v.is_violating (v.consecutive_violations : Int) cr = true →
        dlookup v.track_id acc.saved = none →
        (processViolationEntry cr hist buf fn acc v).saved
          = acc.saved ++ [(v.track_id, snapshotFor v.track_id hist buf fn)]) := by
  refine ⟨?_, ?_, ?_⟩
  · intro cfg detect d0 zones frames
    have hrun : ∀ (l : List (Frame × Nat)) (st : PipelineState Frame δ),
        (dkeys st.saved_violation_snapshots).Nodup →
        (dkeys (runPipeline cfg detect st l).saved_violation_snapshots).Nodup := by
      intro l
      induction l with
      | nil => intro st hst; exact hst
      | cons p rest ih =>
        intro st hst
        exact ih _ (process_frame_saved_nodup cfg detect st p.1 p.2 hst)
    exact hrun frames _ (by simp [PipelineState.init, dkeys])
  · intro cr hist buf fn acc v h1 h2
    simp only [processViolationEntry]
    rw [if_pos h1, if_pos h2]
  · intro cr hist buf fn acc v h1 h2
    simp only [processViolationEntry]
    rw [if_pos h1, if_neg (by simp [h2])]
    exact dinsert_append_of_dlookup_none _ _ _ h2

/-- Witness for c5_snapshot_dedup: a repeat confirmation for track 1, which
already has a snapshot, saves nothing new. -/
theorem c5_snapshot_dedup_witness :
    (processViolationEntry 3 [] ([] : List (Nat × Nat)) 7
        ⟨[(1, ⟨1, 2, 2, some 0⟩)], 5, []⟩
        ⟨1, true, false, true, 0, none, 3, 3, none⟩).saved
      = [(1, ⟨1, 2, 2, some 0⟩)] :=
  (@c5_snapshot_dedup Nat Nat).2.1 3 [] [] 7
    ⟨[(1, ⟨1, 2, 2, some 0⟩)], 5, []⟩
    ⟨1, true, false, true, 0, none, 3, 3, none⟩ (by decide) (by decide)

end HTGTTM



